import Mathlib

set_option maxHeartbeats 1000000

/- Shallow embedding of src/push_py.py (an auto-commit/push polling daemon).

   Modelling conventions:
   * Python strings are `List Char` (`PyString`).  Python's `str.strip`,
     `str.split`, `int(str)` and f-string number rendering are modelled for
     the ASCII range (the repository only ever feeds ASCII through them).
   * External effects (git subprocess exits, filesystem writes) are inputs:
     a `GitEnv` record carries the exit codes / outputs the external
     commands would produce, and file contents are threaded explicitly.
   * Exceptions in the Python code are modelled by the explicit control
     flow they produce (every `except` block in the source either returns
     a value or swallows the error). -/

abbrev PyString := List Char

def str (s : String) : PyString := s.toList

/-- ASCII whitespace stripped by Python `str.strip()`. -/
def pyIsSpace (c : Char) : Bool :=
  c = ' ' || c = '\t' || c = '\n' || c = '\r' || c = '\x0b' || c = '\x0c'

/-- Python `s.strip()` (ASCII whitespace). -/
def pyStrip (s : PyString) : PyString :=
  ((s.dropWhile pyIsSpace).reverse.dropWhile pyIsSpace).reverse

/-- Digit/underscore loop of Python `int(str)` parsing: after the first
    digit, further digits may be separated by single underscores (PEP 515).
    `afterUnd` records that the previous character was an underscore. -/
def digitsLoop : Nat → Bool → List Char → Option Nat
  | acc, false, [] => some acc
  | _, true, [] => none
  | acc, afterUnd, c :: cs =>
    if c.isDigit then digitsLoop (acc * 10 + (c.toNat - 48)) false cs
    else if c = '_' && !afterUnd then digitsLoop acc true cs
    else none

def digitsStart : List Char → Option Nat
  | [] => none
  | c :: cs => if c.isDigit then digitsLoop (c.toNat - 48) false cs else none

/-- Python `int(s)` for an ASCII string `s`: optional surrounding
    whitespace, optional sign, decimal digits with optional single
    underscores between digits.  `none` models a raised `ValueError`. -/
def pyInt? (s : PyString) : Option Int :=
  match pyStrip s with
  | [] => none
  | c :: cs =>
    if c = '+' then (digitsStart cs).map (fun n => (n : Int))
    else if c = '-' then (digitsStart cs).map (fun n => -(n : Int))
    else (digitsStart (c :: cs)).map (fun n => (n : Int))

/-- Fuel-driven decimal rendering helper (fuel `n + 1` always suffices). -/
def natCharsAux : Nat → Nat → PyString → PyString
  | 0, _, acc => acc
  | fuel + 1, n, acc =>
    let acc1 := Nat.digitChar (n % 10) :: acc
    if n < 10 then acc1 else natCharsAux fuel (n / 10) acc1

/-- Decimal rendering of a natural number. -/
def natChars (n : Nat) : PyString := natCharsAux (n + 1) n []

/-- Python `str(i)` for an int `i` (f-string interpolation of a number). -/
def intChars (i : Int) : PyString :=
  if i < 0 then '-' :: natChars i.natAbs else natChars i.natAbs

/-- The f-string of `increment_version`: the string
    rendering of the triple, with dots between the components. -/
def render_version : Int × Int × Int → PyString
  | (ma, mi, pa) => intChars ma ++ '.' :: intChars mi ++ '.' :: intChars pa

/-- src/push_py.py `increment_version` (lines 60-97).  The
    `len(parts) != 3` guard and the `except ValueError` handler both
    return the literal fallback `"1.1.4"`. -/
def increment_version (current_version : PyString) : PyString :=
  match current_version.splitOn '.' with
  | [p0, p1, p2] =>
    match pyInt? p0, pyInt? p1, pyInt? p2 with
    | some major, some minor, some patch =>
      if patch < 99 then render_version (major, minor, patch + 1)
      else if minor < 99 then render_version (major, minor + 1, 0)
      else render_version (major + 1, 0, 0)
    | _, _, _ => str "1.1.4"
  | _ => str "1.1.4"

/-- The parsing phase of `increment_version`: exactly three
    dot-separated parts that all survive Python `int()`. -/
def parse_three (s : PyString) : Option (Int × Int × Int) :=
  match s.splitOn '.' with
  | [p0, p1, p2] =>
    match pyInt? p0, pyInt? p1, pyInt? p2 with
    | some a, some b, some c => some (a, b, c)
    | _, _, _ => none
  | _ => none

/-- Modelled from the spec (section 4.1): the stated increment policy,
    written from the spec wording for the refinement comparison in C4. -/
def spec_increment_policy (ma mi pa : Int) : Int × Int × Int :=
  if pa < 99 then (ma, mi, pa + 1)
  else if mi < 99 then (ma, mi + 1, 0)
  else (ma + 1, 0, 0)

/-- Strict lexicographic order on parsed version triples. -/
def version_lt (a b : Int × Int × Int) : Prop :=
  a.1 < b.1 ∨ (a.1 = b.1 ∧ (a.2.1 < b.2.1 ∨ (a.2.1 = b.2.1 ∧ a.2.2 < b.2.2)))

instance (a b : Int × Int × Int) : Decidable (version_lt a b) := by
  unfold version_lt; infer_instance

example : increment_version (str "1.1.3") = str "1.1.4" := by decide
example : increment_version (str "1.1.99") = str "1.2.0" := by decide
example : increment_version (str "1.99.99") = str "2.0.0" := by decide
example : increment_version (str "x.y.z") = str "1.1.4" := by decide
example : increment_version (str "7.0.0-beta") = str "1.1.4" := by decide
example : increment_version (str " 1 .2.3") = str "1.2.4" := by decide
example : increment_version (str "1.2.1_0") = str "1.2.11" := by decide
example : parse_three (str "1.2") = none := by decide

/-- `increment_version` factored through its parsing phase: well-formed
    triples follow the increment policy, anything else falls back. -/
lemma increment_version_eq (s : PyString) :
    increment_version s =
      (match parse_three s with
       | some (a, b, c) => render_version (spec_increment_policy a b c)
       | none => str "1.1.4") := by
  unfold increment_version parse_three
  rcases hsp : s.splitOn '.' with _ | ⟨p0, _ | ⟨p1, _ | ⟨p2, _ | ⟨p3, rest⟩⟩⟩⟩ <;>
    simp only [hsp] <;> try rfl
  rcases hp0 : pyInt? p0 with _ | a <;> rcases hp1 : pyInt? p1 with _ | b <;>
    rcases hp2 : pyInt? p2 with _ | c <;> simp only [hp0, hp1, hp2] <;> try rfl
  unfold spec_increment_policy
  split_ifs <;> rfl

/-- C4: `increment_version` is total and deterministic; every version
    that parses as three numeric dot-separated parts is advanced by the
    stated patch/minor/major rollover policy (patch and minor roll over
    at 99, major unbounded), the listed concrete examples hold, and any
    malformed input yields the fixed fallback `"1.1.4"` instead of an
    error. -/
theorem claim_C4 :
    (∀ s a b c, parse_three s = some (a, b, c) →
       increment_version s = render_version (spec_increment_policy a b c)) ∧
    (∀ s, parse_three s = none → increment_version s = str "1.1.4") ∧
    increment_version (str "1.1.3") = str "1.1.4" ∧
    increment_version (str "1.1.99") = str "1.2.0" ∧
    increment_version (str "1.99.99") = str "2.0.0" ∧
    increment_version (str "x.y.z") = str "1.1.4" := by
  refine ⟨?_, ?_, by decide, by decide, by decide, by decide⟩
  · intro s a b c h
    rw [increment_version_eq, h]
  · intro s h
    rw [increment_version_eq, h]

/-- Witness for C4 at a concrete well-formed input. -/
theorem claim_C4_witness :
    parse_three (str "10.20.30") = some (10, 20, 30) ∧
    increment_version (str "10.20.30") =
      render_version (spec_increment_policy 10 20 30) :=
  ⟨by decide, claim_C4.1 (str "10.20.30") 10 20 30 (by decide)⟩

/-- C9: every input that is not three dot-separated numeric parts maps
    to the constant `"1.1.4"`; in particular the malformed
    `"7.0.0-beta"` is sent to `"1.1.4"`, which parses as the triple
    (1,1,4), strictly below (7,0,0) — the counter is not monotonic on
    malformed inputs. -/
theorem claim_C9 :
    (∀ s, parse_three s = none → increment_version s = str "1.1.4") ∧
    increment_version (str "7.0.0-beta") = str "1.1.4" ∧
    parse_three (str "1.1.4") = some (1, 1, 4) ∧
    version_lt (1, 1, 4) (7, 0, 0) := by
  refine ⟨?_, by decide, by decide, by decide⟩
  intro s h
  rw [increment_version_eq, h]

/-- Witness for C9 at a concrete malformed input. -/
theorem claim_C9_witness :
    parse_three (str "zzz") = none ∧
    increment_version (str "zzz") = str "1.1.4" :=
  ⟨by decide, claim_C9.1 (str "zzz") (by decide)⟩

/- Connectivity probing, src/push_py.py lines 99-116.  Each probe
   strategy (check_via_requests, check_via_ping_google,
   check_via_ping_cloudflare, check_via_nslookup) is an external call;
   its observable result is either a boolean or a raised exception,
   modelled by `ProbeResult`.  The `for method in methods` loop returns
   True at the first strategy returning a truthy value, treats a raised
   exception like a falsy result (`except ... continue`), and falls
   through to `return False`. -/

inductive ProbeResult
  | ok (b : Bool)
  | exn
deriving DecidableEq

/-- src/push_py.py `check_internet_connection` (lines 99-116), as a
    function of the results the successive probe strategies would
    produce.  Strategies after the first success are never consulted. -/
def check_internet_connection : List ProbeResult → Bool
  | [] => false
  | .ok true :: _ => true
  | _ :: rest => check_internet_connection rest

/-- How many probe strategies the loop actually invokes on the given
    result sequence (the loop stops at the first success). -/
def probes_invoked : List ProbeResult → Nat
  | [] => 0
  | .ok true :: _ => 1
  | _ :: rest => 1 + probes_invoked rest

/-- C8: the connectivity check runs its strategies in order and returns
    true at the first one that succeeds, invoking none after it; a
    failing prefix (false results or raised errors/timeouts) only shifts
    the stopping point; and if every strategy fails the check returns
    false (the model is a total function: no exception reaches the
    caller). -/
theorem claim_C8 :
    (∀ rest, check_internet_connection (.ok true :: rest) = true ∧
       probes_invoked (.ok true :: rest) = 1) ∧
    (∀ pre post, (∀ r ∈ pre, r = .ok false ∨ r = .exn) →
       check_internet_connection (pre ++ .ok true :: post) = true ∧
       probes_invoked (pre ++ .ok true :: post) = pre.length + 1) ∧
    (∀ rs, (∀ r ∈ rs, r = .ok false ∨ r = .exn) →
       check_internet_connection rs = false) := by
  refine ⟨fun rest => ⟨rfl, rfl⟩, ?_, ?_⟩
  · intro pre post hpre
    induction pre with
    | nil => exact ⟨rfl, rfl⟩
    | cons r rs ih =>
      have hr := hpre r (List.mem_cons_self r rs)
      have hrs := fun x hx => hpre x (List.mem_cons_of_mem r hx)
      obtain ⟨ih1, ih2⟩ := ih hrs
      rcases hr with hr | hr <;> subst hr <;>
        exact ⟨by simpa [check_internet_connection] using ih1,
               by simp [probes_invoked, ih2, Nat.add_comm, Nat.add_assoc]⟩
  · intro rs hrs
    induction rs with
    | nil => rfl
    | cons r rest ih =>
      have hr := hrs r (List.mem_cons_self r rest)
      have hrest := ih fun x hx => hrs x (List.mem_cons_of_mem r hx)
      rcases hr with hr | hr <;> subst hr <;>
        simpa [check_internet_connection] using hrest

/-- Witness for C8: two failing strategies, then a success; the loop
    answers true having invoked exactly three strategies. -/
theorem claim_C8_witness :
    check_internet_connection
        [.exn, .ok false, .ok true, .ok true] = true ∧
    probes_invoked [.exn, .ok false, .ok true, .ok true] = 3 := by
  have h := claim_C8.2.1 [.exn, .ok false] [.ok true] (by decide)
  simpa using h

/- Scheduler loop, src/push_py.py `main` lines 815-895.  One normal
   iteration of the `while True` loop updates four mutable loop
   variables (`last_internet_status`, `pending_operations`,
   `check_count`, `failed_operations_count`) from two external facts:
   whether `check_internet_connection()` answered true and, in that
   case, whether `run_git_commands()` returned True.  Printing, log
   writes and sleeping have no effect on these variables and are not
   modelled; the KeyboardInterrupt / unexpected-exception handlers exit
   or skip the bookkeeping and are outside the claims. -/

structure SchedState where
  lastInternet : Bool
  pending : Bool
  checkCount : Nat
  failed : Nat
deriving DecidableEq

/-- One scheduler iteration (fields in order: lastInternet, pending,
    checkCount, failed).  `pipelineOk` is the boolean returned by
    `run_git_commands` (True covers both the Success and the NoChanges
    paths) and is consulted only when `hasInternet` is true. -/
def main_iteration (maxRetries : Nat) (s : SchedState)
    (hasInternet pipelineOk : Bool) : SchedState :=
  let cc := s.checkCount + 1
  if hasInternet then
    let pending1 := if !s.lastInternet && s.pending then false else s.pending
    if !pipelineOk then
      let f := s.failed + 1
      if maxRetries ≤ f then ⟨true, false, cc, 0⟩
      else ⟨true, true, cc, f⟩
    else ⟨true, pending1, cc, 0⟩
  else
    let pending2 := if s.lastInternet then true else s.pending
    ⟨false, pending2, cc, s.failed⟩

/-- C2 counterexample: an iteration with connectivity already up
    (`lastInternet = true`), a pending flag set by an earlier failure,
    and a pipeline returning Success: `failed` is reset to 0 but
    `pending` stays true — the claim that pendingOperations is false
    after every Success/NoChanges iteration regardless of its prior
    value is refuted. -/
theorem claim_C2_counterexample :
    (main_iteration 3 ⟨true, true, 5, 1⟩ true true).failed = 0 ∧
    (main_iteration 3 ⟨true, true, 5, 1⟩ true true).pending = true := by
  decide

/-- C2 (amended): on a Success or NoChanges iteration the scheduler
    resets `failedOperationsCount` to 0, but `pendingOperations` is
    cleared only when the iteration began with connectivity freshly
    restored (`lastInternet = false`) while pending was set; in every
    other case it keeps its prior value — i.e. the new value is
    `pending && lastInternet`. -/
theorem claim_C2_amended (maxRetries : Nat) (s : SchedState) :
    (main_iteration maxRetries s true true).failed = 0 ∧
    (main_iteration maxRetries s true true).pending =
      (s.pending && s.lastInternet) := by
  cases hl : s.lastInternet <;> cases hp : s.pending <;>
    simp [main_iteration, hl, hp]

/-- `n` consecutive scheduler iterations in which connectivity is up
    and the pipeline reports Failure each time. -/
def iterate_failures (maxRetries : Nat) : Nat → SchedState → SchedState
  | 0, s => s
  | n + 1, s => main_iteration maxRetries (iterate_failures maxRetries n s) true false

/-- C5: starting from a zeroed failure counter, after `n ≥ 1`
    consecutive Failure outcomes the counter equals `n % maxRetries`
    and `pending` is set iff that remainder is nonzero: for fewer than
    `maxRetries` failures each failure increments the counter and sets
    `pending`; at exactly `maxRetries` (and at every further multiple,
    regardless of further failures) the counter resets to 0 and
    `pending` clears. -/
theorem claim_C5 (maxRetries : Nat) (hm : 0 < maxRetries) (s : SchedState)
    (h0 : s.failed = 0) (n : Nat) (hn : 0 < n) :
    (iterate_failures maxRetries n s).failed = n % maxRetries ∧
    ((iterate_failures maxRetries n s).pending = true ↔ n % maxRetries ≠ 0) := by
  induction n with
  | zero => omega
  | succ n ih =>
    rcases Nat.eq_zero_or_pos n with hz | hpos
    · subst hz
      simp only [iterate_failures, main_iteration, h0, Bool.not_true, Bool.not_false]
      rcases Nat.lt_or_ge 1 maxRetries with h1 | h1
      · have hmod : 1 % maxRetries = 1 := Nat.mod_eq_of_lt h1
        simp [Nat.not_le.mpr h1, hmod]
      · have hm1 : maxRetries = 1 := by omega
        subst hm1
        simp
    · obtain ⟨ihf, ihp⟩ := ih hpos
      have hlt : n % maxRetries < maxRetries := Nat.mod_lt _ hm
      simp only [iterate_failures, main_iteration, ihf, Bool.not_true, Bool.not_false]
      rcases Nat.lt_or_ge (n % maxRetries + 1) maxRetries with hcase | hcase
      · have hmod : (n + 1) % maxRetries = n % maxRetries + 1 := by
          conv_lhs => rw [← Nat.mod_add_mod]
          exact Nat.mod_eq_of_lt hcase
        simp [Nat.not_le.mpr hcase, hmod]
      · have heq : n % maxRetries + 1 = maxRetries := by omega
        have hmod : (n + 1) % maxRetries = 0 := by
          have : (n + 1) % maxRetries = (n % maxRetries + 1) % maxRetries := by
            conv_lhs => rw [← Nat.mod_add_mod]
          rw [this, heq, Nat.mod_self]
        simp [hcase, hmod]

/-- Witness for C5 at maxRetries = 3 with three consecutive failures:
    the counter is back to 0 and pending is cleared. -/
theorem claim_C5_witness :
    (iterate_failures 3 3 ⟨false, false, 0, 0⟩).failed = 3 % 3 ∧
    ((iterate_failures 3 3 ⟨false, false, 0, 0⟩).pending = true ↔ 3 % 3 ≠ 0) :=
  claim_C5 3 (by decide) ⟨false, false, 0, 0⟩ (by decide) 3 (by decide)

/- Change summarizer, src/push_py.py `get_django_changes` (lines
   200-262), as a function of the stdout of `git status --porcelain`
   (the subprocess itself is assumed to run; its exception path yields
   an error string that is not "No changes found" and is not needed by
   any claim). -/

/-- The classification loop of `get_django_changes`: status code `A` or
    `??` goes to added, `M` to modified, `D` to deleted, anything else
    is silently ignored.  Returns (added, modified, deleted) in
    occurrence order. -/
def classify_changes : List PyString → List PyString × List PyString × List PyString
  | [] => ([], [], [])
  | change :: rest =>
    let (a, m, d) := classify_changes rest
    if pyStrip change = [] then (a, m, d)
    else
      let status := pyStrip (change.take 2)
      let filePath := change.drop 3
      if status = str "A" ∨ status = str "??" then (filePath :: a, m, d)
      else if status = str "M" then (a, filePath :: m, d)
      else if status = str "D" then (a, m, filePath :: d)
      else (a, m, d)

/-- The first-five `- {file}` lines of one commit-message section. -/
def file_lines (files : List PyString) : PyString :=
  ((files.take 5).map (fun f => str "- " ++ f ++ ['\n'])).flatten

/-- One section of the generated commit message (`header` then up to
    five file lines then the `... and N more files` line if truncated). -/
def section_body (header : PyString) (files : List PyString) : PyString :=
  header ++ file_lines files ++
    (if 5 < files.length
     then str "... and " ++ natChars (files.length - 5) ++ str " more files\n"
     else [])

/-- src/push_py.py `get_django_changes` (lines 200-262) as a function
    of the porcelain status stdout. -/
def get_django_changes (statusOut : PyString) : PyString :=
  if pyStrip statusOut = [] then str "No changes found"
  else
    let changes := (pyStrip statusOut).splitOn '\n'
    let (added, modified, deleted) := classify_changes changes
    let msg := str "Django project changes:\n\n"
    let msg := if added ≠ [] then
        msg ++ section_body (str "Added files:\n") added ++ str "\n"
      else msg
    let msg := if modified ≠ [] then
        msg ++ section_body (str "Modified files:\n") modified ++ str "\n"
      else msg
    let msg := if deleted ≠ [] then
        msg ++ section_body (str "Deleted files:\n") deleted
      else msg
    pyStrip msg

/-- The early-return sentinel of `get_django_changes`. -/
def no_changes_found : PyString := str "No changes found"

/-- src/push_py.py `save_version` (lines 49-58): attempt to overwrite
    the version file; any exception is caught and turned into a False
    return value, leaving the previous persisted content in place.
    `ok` is whether the filesystem write succeeds.  Returns (the
    boolean result, the persisted file content afterwards). -/
def save_version (ok : Bool) (version : PyString) (persisted : Option PyString) :
    Bool × Option PyString :=
  if ok then (true, some version) else (false, persisted)

/- Environment of one `run_git_commands` invocation: everything the
   external git commands and the filesystem would answer.  Exit codes
   are 0 for success; the `...Ok` booleans mean the corresponding
   `run_git_command_safe` call does not raise. -/
structure GitEnv where
  statusOut : PyString      -- stdout of `git status --porcelain`
  addExit : Int             -- exit code of `git add .`
  saveOk : Bool             -- whether writing the version file succeeds
  commitExit : Int          -- exit code of `git commit -m ...`
  revParseShortOk : Bool    -- `git rev-parse --short HEAD` succeeds
  commitHashOut : PyString  -- its stdout
  pushExit : Int            -- exit code of `git push -u origin <branch>`
  localHeadOk : Bool        -- `git rev-parse HEAD` succeeds (verification)
  localHeadOut : PyString   -- its stdout
  lsRemoteOk : Bool         -- `git ls-remote origin refs/heads/<branch>` succeeds
  lsRemoteOut : PyString    -- its stdout
  localLogOk : Bool         -- `git log --oneline -1` succeeds (verification)
  localLogOut : PyString    -- its stdout
deriving DecidableEq

/-- The remote tip extracted by `verify_git_push` (lines 423-431): the
    first whitespace-separated token of the stripped `ls-remote`
    output; `none` when the command raised or printed nothing. -/
def remote_tip (e : GitEnv) : Option PyString :=
  if e.lsRemoteOk then
    let out := pyStrip e.lsRemoteOut
    if out = [] then none
    else some (pyStrip (out.takeWhile (fun c => !pyIsSpace c)))
  else none

/-- src/push_py.py `verify_git_push` (lines 416-454).  Result tuple:
    (verified, local commit, remote commit, last commit message /
    error text).  A failing local `rev-parse HEAD` or `git log` lands
    in the outer `except`, which returns False with both commits None;
    an unreadable or empty remote is treated as verified. -/
def verify_git_push (e : GitEnv) : Bool × Option PyString × Option PyString × PyString :=
  if e.localHeadOk = false then (false, none, none, str "exception")
  else
    let localCommit := pyStrip e.localHeadOut
    let remoteCommit := remote_tip e
    if e.localLogOk = false then (false, none, none, str "exception")
    else
      let localMsg := pyStrip e.localLogOut
      match remoteCommit with
      | some rc =>
        if localCommit = rc then (true, some localCommit, some rc, localMsg)
        else (false, some localCommit, some rc, localMsg)
      | none => (true, some localCommit, none, localMsg)

/-- The stage at which `run_git_commands` raised into its `except`
    handler. -/
inductive Stage
  | stage           -- `git add` failed
  | commit          -- `git commit` failed
  | commitHashQuery -- `git rev-parse --short HEAD` failed after the commit
  | push            -- `git push` failed
deriving DecidableEq

/-- Which control-flow path one `run_git_commands` call took. -/
inductive Outcome
  | noChanges
  | success (verified : Bool)
  | failure (st : Stage)
deriving DecidableEq

/-- The stage/commit/push operations that mutate the repository. -/
inductive GitOp
  | add
  | commit
  | push
deriving DecidableEq

/-- Observable result of one `run_git_commands` call: the returned
    boolean, the in-memory CURRENT_VERSION afterwards, the version-file
    content afterwards, the mutating git operations invoked (in order),
    and the control-flow path taken. -/
structure RunResult where
  ret : Bool
  version : PyString
  persistedVersion : Option PyString
  invoked : List GitOp
  outcome : Outcome
deriving DecidableEq

/-- src/push_py.py `run_git_commands` (lines 456-634) as a function of
    the external environment, the in-memory CURRENT_VERSION `cur` and
    the persisted version-file content `persisted0`.  Mirrors the
    source order: changes check, `git add`, increment + assign +
    `save_version` (its boolean result is discarded), `git commit`,
    commit-hash query, `git push`, `verify_git_push`.  Log writes
    absorb their own errors and touch none of the modelled state; every
    raise lands in the outer `except`, which returns False. -/
def run_git_commands (e : GitEnv) (cur : PyString) (persisted0 : Option PyString) :
    RunResult :=
  let changes := get_django_changes e.statusOut
  if changes = no_changes_found then
    ⟨true, cur, persisted0, [], .noChanges⟩
  else if e.addExit ≠ 0 then
    ⟨false, cur, persisted0, [.add], .failure .stage⟩
  else
    let newVersion := increment_version cur
    let persisted1 := (save_version e.saveOk newVersion persisted0).2
    if e.commitExit ≠ 0 then
      ⟨false, newVersion, persisted1, [.add, .commit], .failure .commit⟩
    else if e.revParseShortOk = false then
      ⟨false, newVersion, persisted1, [.add, .commit], .failure .commitHashQuery⟩
    else if e.pushExit ≠ 0 then
      ⟨false, newVersion, persisted1, [.add, .commit, .push], .failure .push⟩
    else
      ⟨true, newVersion, persisted1, [.add, .commit, .push],
        .success (verify_git_push e).1⟩

/-- A concrete environment: one modified file, `git add` succeeds, the
    version-file write succeeds, `git commit` exits non-zero.
    (Fields: statusOut, addExit, saveOk, commitExit, revParseShortOk,
    commitHashOut, pushExit, localHeadOk, localHeadOut, lsRemoteOk,
    lsRemoteOut, localLogOk, localLogOut.) -/
def env_commit_fails : GitEnv :=
  ⟨str " M app.py\n", 0, true, 1, true, str "abc1234", 0,
   true, str "cafebabe", false, str "", true, str "log line"⟩

/-- C1 counterexample: with the commit operation exiting non-zero the
    pipeline does produce Failed(Commit), but the version file has
    already been overwritten with the incremented version (the source
    calls `save_version` before `git commit`), so the persisted version
    is NOT unchanged on the commit-failure path. -/
theorem claim_C1_counterexample :
    (run_git_commands env_commit_fails (str "1.1.3")
        (some (str "1.1.3"))).outcome = .failure .commit ∧
    (run_git_commands env_commit_fails (str "1.1.3")
        (some (str "1.1.3"))).persistedVersion = some (str "1.1.4") ∧
    (some (str "1.1.4") : Option PyString) ≠ some (str "1.1.3") := by
  decide

/-- C1 (amended): if the commit operation exits non-zero the pipeline
    produces Failed(Commit), but the incremented version has already
    been persisted before the commit is invoked — the persisted version
    file holds `increment_version cur` on the commit-failure path just
    as on the success path (persistence precedes the commit, it is not
    conditional on commit success). -/
theorem claim_C1_amended (e : GitEnv) (cur : PyString) (p0 : Option PyString)
    (hch : get_django_changes e.statusOut ≠ no_changes_found)
    (hadd : e.addExit = 0) (hsave : e.saveOk = true)
    (hcommit : e.commitExit ≠ 0) :
    (run_git_commands e cur p0).outcome = .failure .commit ∧
    (run_git_commands e cur p0).persistedVersion =
      some (increment_version cur) := by
  simp [run_git_commands, hch, hadd, hsave, hcommit, save_version]

/-- Witness for the amended C1 at the concrete failing-commit
    environment. -/
theorem claim_C1_amended_witness :
    (run_git_commands env_commit_fails (str "1.1.3")
        (some (str "1.1.3"))).outcome = .failure .commit ∧
    (run_git_commands env_commit_fails (str "1.1.3")
        (some (str "1.1.3"))).persistedVersion =
      some (increment_version (str "1.1.3")) :=
  claim_C1_amended env_commit_fails (str "1.1.3") (some (str "1.1.3"))
    (by decide) (by decide) (by decide) (by decide)

/-- C6: when the status inspection reports no changes (its stdout is
    whitespace only), the pipeline returns on the NoChanges path:
    outcome NoChanges, no stage/commit/push operation invoked, and both
    the in-memory and the persisted version are untouched. -/
theorem claim_C6 (e : GitEnv) (cur : PyString) (p0 : Option PyString)
    (h : pyStrip e.statusOut = []) :
    run_git_commands e cur p0 = ⟨true, cur, p0, [], .noChanges⟩ := by
  have hch : get_django_changes e.statusOut = no_changes_found := by
    simp [get_django_changes, h, no_changes_found]
  simp [run_git_commands, hch]

/-- An environment whose porcelain status output is blank (every other
    external call set to fail, to show none of them is consulted). -/
def env_no_changes : GitEnv :=
  ⟨str "  \n", 1, false, 1, false, str "", 1,
   false, str "", false, str "", false, str ""⟩

/-- Witness for C6 at a concrete blank-status environment. -/
theorem claim_C6_witness :
    run_git_commands env_no_changes (str "1.1.3") none =
      ⟨true, str "1.1.3", none, [], .noChanges⟩ :=
  claim_C6 env_no_changes (str "1.1.3") none (by decide)

/-- C7: with the local HEAD and `git log` queries succeeding, push
    verification answers true when the remote tip equals the local
    HEAD, false when a remote tip is present but different, and true
    when the remote tip is absent or unreadable; and a false
    verification does not flip a successful cycle into a failure:
    whenever add/commit/hash/push all succeed the pipeline still
    returns True. -/
theorem claim_C7 (e : GitEnv) (h1 : e.localHeadOk = true)
    (h2 : e.localLogOk = true) :
    (remote_tip e = some (pyStrip e.localHeadOut) →
       (verify_git_push e).1 = true) ∧
    (∀ rc, remote_tip e = some rc → rc ≠ pyStrip e.localHeadOut →
       (verify_git_push e).1 = false) ∧
    (remote_tip e = none → (verify_git_push e).1 = true) ∧
    (∀ cur p0, get_django_changes e.statusOut ≠ no_changes_found →
       e.addExit = 0 → e.commitExit = 0 → e.revParseShortOk = true →
       e.pushExit = 0 → (run_git_commands e cur p0).ret = true) := by
  refine ⟨?_, ?_, ?_, ?_⟩
  · intro hr
    simp [verify_git_push, h1, h2, hr]
  · intro rc hr hne
    simp [verify_git_push, h1, h2, hr, Ne.symm hne]
  · intro hr
    simp [verify_git_push, h1, h2, hr]
  · intro cur p0 hch hadd hcommit hrp hpush
    simp [run_git_commands, hch, hadd, hcommit, hrp, hpush]

/-- A concrete environment in which the push succeeds but the remote
    tip read back by `ls-remote` differs from the local HEAD. -/
def env_push_mismatch : GitEnv :=
  ⟨str " M app.py\n", 0, true, 0, true, str "abc1234", 0,
   true, str "cafebabe\n", true, str "deadbeef\trefs/heads/main\n",
   true, str "abc msg"⟩

/-- Witness for C7: at the mismatch environment, verification answers
    false while the cycle still returns True. -/
theorem claim_C7_witness :
    (verify_git_push env_push_mismatch).1 = false ∧
    (run_git_commands env_push_mismatch (str "1.1.3") none).ret = true :=
  ⟨(claim_C7 env_push_mismatch (by decide) (by decide)).2.1
      (str "deadbeef") (by decide) (by decide),
   (claim_C7 env_push_mismatch (by decide) (by decide)).2.2.2
      (str "1.1.3") none (by decide) (by decide) (by decide) (by decide)
      (by decide)⟩

/-- C10: when writing the version file fails, `save_version` absorbs
    the exception and returns False, the pipeline discards that value
    and proceeds: with all git operations succeeding the cycle returns
    True (reported as a success), the persisted version file is left as
    it was, and only the in-memory version advanced. -/
theorem claim_C10 (e : GitEnv) (cur : PyString) (p0 : Option PyString)
    (hch : get_django_changes e.statusOut ≠ no_changes_found)
    (hadd : e.addExit = 0) (hsave : e.saveOk = false)
    (hcommit : e.commitExit = 0) (hrp : e.revParseShortOk = true)
    (hpush : e.pushExit = 0) :
    (run_git_commands e cur p0).ret = true ∧
    (run_git_commands e cur p0).outcome = .success (verify_git_push e).1 ∧
    (run_git_commands e cur p0).persistedVersion = p0 ∧
    (run_git_commands e cur p0).version = increment_version cur ∧
    (save_version false (increment_version cur) p0).1 = false := by
  simp [run_git_commands, hch, hadd, hsave, hcommit, hrp, hpush, save_version]

/-- A concrete environment in which only the version-file write fails. -/
def env_save_fails : GitEnv :=
  ⟨str "?? new.py\n", 0, false, 0, true, str "abc1234", 0,
   true, str "h\n", false, str "", true, str "m"⟩

/-- Witness for C10 at the concrete failing-write environment. -/
theorem claim_C10_witness :
    (run_git_commands env_save_fails (str "1.1.3")
        (some (str "1.1.3"))).ret = true ∧
    (run_git_commands env_save_fails (str "1.1.3")
        (some (str "1.1.3"))).outcome =
      .success (verify_git_push env_save_fails).1 ∧
    (run_git_commands env_save_fails (str "1.1.3")
        (some (str "1.1.3"))).persistedVersion = some (str "1.1.3") ∧
    (run_git_commands env_save_fails (str "1.1.3")
        (some (str "1.1.3"))).version = increment_version (str "1.1.3") ∧
    (save_version false (increment_version (str "1.1.3"))
        (some (str "1.1.3"))).1 = false :=
  claim_C10 env_save_fails (str "1.1.3") (some (str "1.1.3"))
    (by decide) (by decide) (by decide) (by decide) (by decide) (by decide)

/- Log file model, src/push_py.py `rotate_log_file_if_needed` (lines
   264-310) and `save_to_log_file` (lines 312-337).  A file is its
   character content (`none` = the file does not exist).  Line counts
   are `len(f.readlines())`: segments ending at each newline plus a
   final unterminated segment if any. -/

/-- Python `f.readlines()`: the list of lines of `s`, each line keeping
    its terminating newline; a final segment without a newline is its
    own line. -/
def readLines : PyString → List PyString
  | [] => []
  | c :: cs =>
    if c = '\n' then [c] :: readLines cs
    else
      match readLines cs with
      | [] => [[c]]
      | l :: ls => (c :: l) :: ls

example : readLines (str "a\nbc\n") = [str "a\n", str "bc\n"] := by decide
example : readLines (str "a\nbc") = [str "a\n", str "bc"] := by decide
example : readLines (str "\n\n") = [str "\n", str "\n"] := by decide

lemma readLines_ne_nil (c : Char) (cs : PyString) : readLines (c :: cs) ≠ [] := by
  unfold readLines
  by_cases hc : c = '\n'
  · simp [hc]
  · simp only [if_neg hc]
    rcases readLines cs with _ | ⟨l, ls⟩ <;> simp

lemma readLines_cons_nl (cs : PyString) :
    readLines ('\n' :: cs) = ['\n'] :: readLines cs := by
  conv_lhs => rw [readLines.eq_def]
  simp

lemma readLines_cons_of_ne (c : Char) (cs : PyString) (hc : c ≠ '\n') :
    readLines (c :: cs) =
      match readLines cs with
      | [] => [[c]]
      | l :: ls => (c :: l) :: ls := by
  conv_lhs => rw [readLines.eq_def]
  simp [if_neg hc]

/-- `readlines` is a partition of the content. -/
lemma flatten_readLines (s : PyString) : (readLines s).flatten = s := by
  induction s with
  | nil => rfl
  | cons c cs ih =>
    unfold readLines
    by_cases hc : c = '\n'
    · subst hc
      simp [ih]
    · simp only [if_neg hc]
      rcases h : readLines cs with _ | ⟨l, ls⟩
      · have hnil : cs = [] := by
          cases cs with
          | nil => rfl
          | cons d ds => exact absurd h (readLines_ne_nil d ds)
        subst hnil
        simp
      · rw [h] at ih
        simp only [List.flatten_cons] at ih ⊢
        simp [ih]

/-- A proper line: nonempty, ends with a newline, no interior newline. -/
def proper_line (l : PyString) : Prop := ∃ m, l = m ++ ['\n'] ∧ '\n' ∉ m

lemma readLines_proper_cons (l x : PyString) (h : proper_line l) :
    readLines (l ++ x) = l :: readLines x := by
  obtain ⟨m, rfl, hm⟩ := h
  induction m with
  | nil => simp [readLines]
  | cons c m ih =>
    have hc : c ≠ '\n' := fun hc => hm (hc ▸ List.mem_cons_self c m)
    have hm2 : '\n' ∉ m := fun hx => hm (List.mem_cons_of_mem c hx)
    simp only [List.cons_append]
    rw [readLines_cons_of_ne _ _ hc, ih hm2]

/-- Reading a concatenation of proper lines followed by a remainder. -/
lemma readLines_flatten_append (L : List PyString) (r : PyString)
    (h : ∀ l ∈ L, proper_line l) :
    readLines (L.flatten ++ r) = L ++ readLines r := by
  induction L with
  | nil => simp
  | cons l L ih =>
    have hl := h l (List.mem_cons_self l L)
    have hL := fun x hx => h x (List.mem_cons_of_mem l hx)
    simp only [List.flatten_cons, List.append_assoc]
    rw [readLines_proper_cons _ _ hl, ih hL]
    rfl

lemma readLines_flatten (L : List PyString) (h : ∀ l ∈ L, proper_line l) :
    readLines L.flatten = L := by
  have h0 : readLines ([] : PyString) = [] := rfl
  have := readLines_flatten_append L [] h
  simpa [h0] using this

/-- Content ending with a newline. -/
def ends_with_nl (s : PyString) : Prop := s.getLast? = some '\n'

instance (s : PyString) : Decidable (ends_with_nl s) := by
  unfold ends_with_nl; infer_instance

/-- Every line of newline-terminated content is a proper line. -/
lemma proper_of_ends_nl (s : PyString) (hs : ends_with_nl s) :
    ∀ l ∈ readLines s, proper_line l := by
  induction s with
  | nil => simp [readLines]
  | cons c cs ih =>
    intro l hl
    cases cs with
    | nil =>
      have hc : c = '\n' := by
        simpa [ends_with_nl] using hs
      subst hc
      simp [readLines] at hl
      subst hl
      exact ⟨[], rfl, by simp⟩
    | cons d ds =>
      have hcs : ends_with_nl (d :: ds) := by
        unfold ends_with_nl at hs ⊢
        rwa [List.getLast?_cons_cons] at hs
      by_cases hc : c = '\n'
      · subst hc
        rw [readLines_cons_nl] at hl
        rcases List.mem_cons.mp hl with rfl | hl
        · exact ⟨[], rfl, by simp⟩
        · exact ih hcs l hl
      · rcases hrl : readLines (d :: ds) with _ | ⟨l0, ls⟩
        · exact absurd hrl (readLines_ne_nil d ds)
        · rw [readLines_cons_of_ne c (d :: ds) hc, hrl] at hl
          rcases List.mem_cons.mp hl with rfl | hl
          · obtain ⟨m, hm, hmn⟩ :=
              ih hcs l0 (by rw [hrl]; exact List.mem_cons_self _ _)
            refine ⟨c :: m, by rw [hm]; rfl, ?_⟩
            intro hmem
            rcases List.mem_cons.mp hmem with h1 | h1
            · exact hc h1.symm
            · exact hmn h1
          · exact ih hcs l (by rw [hrl]; exact List.mem_cons_of_mem _ hl)

lemma digitChar_ne_nl (d : Nat) (hd : d < 10) : Nat.digitChar d ≠ '\n' := by
  interval_cases d <;> decide

lemma natCharsAux_no_nl (fuel : Nat) : ∀ (n : Nat) (acc : PyString),
    '\n' ∉ acc → '\n' ∉ natCharsAux fuel n acc := by
  induction fuel with
  | zero =>
    intro n acc hacc
    simpa [natCharsAux] using hacc
  | succ fuel ih =>
    intro n acc hacc
    have hacc1 : '\n' ∉ Nat.digitChar (n % 10) :: acc := by
      intro h
      rcases List.mem_cons.mp h with h | h
      · exact digitChar_ne_nl (n % 10) (Nat.mod_lt _ (by omega)) h.symm
      · exact hacc h
    simp only [natCharsAux]
    split_ifs
    · exact hacc1
    · exact ih _ _ hacc1

/-- Decimal renderings contain no newline. -/
lemma natChars_no_nl (n : Nat) : '\n' ∉ natChars n :=
  natCharsAux_no_nl _ _ _ (by simp)

/-- The `"="*80` rule line of the rotation marker. -/
def eq80 : PyString := List.replicate 80 '='

/-- src/push_py.py lines 294-302: the seven strings of
    `rotation_marker`, written to the log via `writelines` (which
    concatenates them). -/
def rotation_marker (total newSize maxLines : Nat) (ts : PyString) :
    List PyString :=
  [ '\n' :: (eq80 ++ ['\n']),
    str "LOG FILE ROTATED\n",
    str "Time: " ++ ts ++ ['\n'],
    str "Previous size: " ++ natChars total ++ str " lines\n",
    str "New size: " ++ natChars newSize ++ str " lines\n",
    str "Rotation threshold: " ++ natChars maxLines ++ str " lines\n",
    eq80 ++ str "\n\n" ]

/-- The same characters as `rotation_marker`, regrouped into the nine
    newline-terminated lines the block consists of. -/
def marker_lines (total newSize maxLines : Nat) (ts : PyString) :
    List PyString :=
  [ ['\n'],
    eq80 ++ ['\n'],
    str "LOG FILE ROTATED" ++ ['\n'],
    str "Time: " ++ ts ++ ['\n'],
    str "Previous size: " ++ natChars total ++ str " lines" ++ ['\n'],
    str "New size: " ++ natChars newSize ++ str " lines" ++ ['\n'],
    str "Rotation threshold: " ++ natChars maxLines ++ str " lines" ++ ['\n'],
    eq80 ++ ['\n'],
    ['\n'] ]

lemma flatten_marker_eq (t n m : Nat) (ts : PyString) :
    (rotation_marker t n m ts).flatten = (marker_lines t n m ts).flatten := by
  have h1 : str "LOG FILE ROTATED\n" = str "LOG FILE ROTATED" ++ ['\n'] := by
    decide
  have h2 : str " lines\n" = str " lines" ++ (['\n'] : PyString) := by decide
  have h3 : str "\n\n" = (['\n'] ++ ['\n'] : PyString) := by decide
  simp [rotation_marker, marker_lines, h1, h2, h3]

lemma marker_lines_proper (t n m : Nat) (ts : PyString) (hts : '\n' ∉ ts) :
    ∀ l ∈ marker_lines t n m ts, proper_line l := by
  have heq : '\n' ∉ eq80 := by
    intro h
    have := List.eq_of_mem_replicate h
    exact absurd this (by decide)
  intro l hl
  simp only [marker_lines, List.mem_cons, List.not_mem_nil, or_false] at hl
  rcases hl with rfl | rfl | rfl | rfl | rfl | rfl | rfl | rfl | rfl
  · exact ⟨[], rfl, by simp⟩
  · exact ⟨eq80, rfl, heq⟩
  · exact ⟨str "LOG FILE ROTATED", rfl, by decide⟩
  · refine ⟨str "Time: " ++ ts, by simp, ?_⟩
    intro h
    rcases List.mem_append.mp h with h | h
    · revert h; decide
    · exact hts h
  · refine ⟨str "Previous size: " ++ natChars t ++ str " lines", by simp, ?_⟩
    intro h
    rcases List.mem_append.mp h with h | h
    · rcases List.mem_append.mp h with h | h
      · revert h; decide
      · exact natChars_no_nl t h
    · revert h; decide
  · refine ⟨str "New size: " ++ natChars n ++ str " lines", by simp, ?_⟩
    intro h
    rcases List.mem_append.mp h with h | h
    · rcases List.mem_append.mp h with h | h
      · revert h; decide
      · exact natChars_no_nl n h
    · revert h; decide
  · refine ⟨str "Rotation threshold: " ++ natChars m ++ str " lines", by simp, ?_⟩
    intro h
    rcases List.mem_append.mp h with h | h
    · rcases List.mem_append.mp h with h | h
      · revert h; decide
      · exact natChars_no_nl m h
    · revert h; decide
  · exact ⟨eq80, rfl, heq⟩
  · exact ⟨[], rfl, by simp⟩

/-- src/push_py.py `rotate_log_file_if_needed` (lines 264-310) as a
    function of the log-file content (`none` = file absent) and the
    rotation timestamp.  Python `lines[-keep:]` is the whole list when
    `keep = 0` and the last `keep` lines otherwise; `writelines`
    concatenates, so the rotated file is the kept lines followed by the
    marker block. -/
def rotate_log_file_if_needed (maxLines keep : Nat) (ts : PyString)
    (file : Option PyString) : Option PyString :=
  match file with
  | none => none
  | some content =>
    let lines := readLines content
    let total := lines.length
    if maxLines ≤ total then
      if keep < total then
        let linesToKeep := if keep = 0 then lines else lines.drop (total - keep)
        some (linesToKeep.flatten ++
          (rotation_marker total linesToKeep.length maxLines ts).flatten)
      else some content
    else some content

/-- The four `f.write` calls of `save_to_log_file` (lines 320-324)
    concatenated: blank line, separator, `[timestamp]`, separator,
    message, final newline. -/
def log_entry (sep ts message : PyString) : PyString :=
  '\n' :: sep ++ '\n' :: '[' :: ts ++ ']' :: '\n' :: sep ++ '\n' :: message ++ ['\n']

/-- The default separator `"="*60`. -/
def sep60 : PyString := List.replicate 60 '='

/-- src/push_py.py `save_to_log_file` (lines 312-337): rotate first if
    needed, then append the entry (the post-write size report only
    prints; write errors are absorbed and not modelled). -/
def save_to_log_file (maxLines keep : Nat) (rotTs ts message sep : PyString)
    (file : Option PyString) : Option PyString :=
  let file1 := rotate_log_file_if_needed maxLines keep rotTs file
  some (file1.getD [] ++ log_entry sep ts message)

/-- Under the rotation trigger (content of at least `maxLines` lines,
    `0 < keep < maxLines`, newline-terminated content, newline-free
    timestamp), the rotated file is exactly the last `keep` lines
    followed by the nine marker lines. -/
lemma rotate_lines (maxLines keep : Nat) (ts content : PyString)
    (hk : 0 < keep) (hkm : keep < maxLines)
    (htot : maxLines ≤ (readLines content).length)
    (hend : ends_with_nl content) (hts : '\n' ∉ ts) :
    rotate_log_file_if_needed maxLines keep ts (some content) =
      some (((readLines content).drop ((readLines content).length - keep) ++
        marker_lines (readLines content).length keep maxLines ts).flatten) ∧
    readLines (((readLines content).drop ((readLines content).length - keep) ++
        marker_lines (readLines content).length keep maxLines ts).flatten) =
      (readLines content).drop ((readLines content).length - keep) ++
        marker_lines (readLines content).length keep maxLines ts ∧
    ((readLines content).drop ((readLines content).length - keep)).length =
      keep := by
  have hkt : keep < (readLines content).length := lt_of_lt_of_le hkm htot
  have hlen : ((readLines content).drop
      ((readLines content).length - keep)).length = keep := by
    rw [List.length_drop]
    omega
  refine ⟨?_, ?_, hlen⟩
  · simp only [rotate_log_file_if_needed]
    rw [if_pos htot, if_pos hkt, if_neg (by omega : ¬ keep = 0), hlen,
      flatten_marker_eq, ← List.flatten_append]
  · apply readLines_flatten
    intro l hl
    rcases List.mem_append.mp hl with h | h
    · exact proper_of_ends_nl content hend l (List.mem_of_mem_drop h)
    · exact marker_lines_proper _ _ _ _ hts l h

/-- A 1999-line log file content (each line is one character plus its
    newline). -/
def big_log : PyString := (List.replicate 1999 (str "x\n")).flatten

lemma big_log_lines : readLines big_log = List.replicate 1999 (str "x\n") := by
  apply readLines_flatten
  intro l hl
  rw [List.eq_of_mem_replicate hl]
  exact ⟨['x'], by decide, by decide⟩

/-- C3 counterexample: at the configured values (max_log_lines = 2000,
    log_rotation_size = 1000), appending one 5-line entry to a
    1999-line log (below the rotation threshold, so no rotation runs)
    leaves 2004 lines — the claimed post-append bound of at most
    max_log_lines lines is violated. -/
theorem claim_C3_counterexample :
    2000 < (readLines ((save_to_log_file 2000 1000 (str "T")
        (str "2025-01-01 00:00:00") (str "hello") sep60
        (some big_log)).getD [])).length := by
  have hprop : ∀ l ∈ List.replicate 1999 (str "x\n"), proper_line l := by
    intro l hl
    rw [List.eq_of_mem_replicate hl]
    exact ⟨['x'], by decide, by decide⟩
  have hrot : rotate_log_file_if_needed 2000 1000 (str "T") (some big_log) =
      some big_log := by
    simp only [rotate_log_file_if_needed, big_log_lines, List.length_replicate]
    norm_num
  have happ : readLines (big_log ++
      log_entry sep60 (str "2025-01-01 00:00:00") (str "hello")) =
      List.replicate 1999 (str "x\n") ++
        readLines (log_entry sep60 (str "2025-01-01 00:00:00") (str "hello")) :=
    readLines_flatten_append _ _ hprop
  have hentry : (readLines (log_entry sep60 (str "2025-01-01 00:00:00")
      (str "hello"))).length = 5 := by decide
  simp only [save_to_log_file, hrot, Option.getD_some]
  rw [happ, List.length_append, List.length_replicate, hentry]
  norm_num

/-- C3 (amended): rotation runs before the append, so whenever a
    rotation occurs the post-rotation line count is exactly
    log_rotation_size plus the 9-line rotation-marker block; the count
    after an append, however, is only bounded by the pre-append count
    (at most max_log_lines − 1 without a rotation, log_rotation_size +
    9 after one) plus the appended entry's own line count, and can
    therefore exceed max_log_lines. -/
theorem claim_C3_amended :
    (∀ maxLines keep ts c, 0 < keep → keep < maxLines →
       maxLines ≤ (readLines c).length → ends_with_nl c → '\n' ∉ ts →
       (readLines ((rotate_log_file_if_needed maxLines keep ts
           (some c)).getD [])).length = keep + 9) ∧
    (∀ maxLines keep rotTs ts message sep file, 0 < keep → keep < maxLines →
       '\n' ∉ rotTs → (∀ c, file = some c → ends_with_nl c) →
       (readLines ((save_to_log_file maxLines keep rotTs ts message sep
           file).getD [])).length ≤
         max (maxLines - 1) (keep + 9) +
           (readLines (log_entry sep ts message)).length) := by
  constructor
  · intro maxLines keep ts c hk hkm htot hend hts
    obtain ⟨h1, h2, h3⟩ := rotate_lines maxLines keep ts c hk hkm htot hend hts
    rw [h1, Option.getD_some, h2, List.length_append, h3]
    simp [marker_lines]
  · intro maxLines keep rotTs ts message sep file hk hkm hts hfile
    cases file with
    | none =>
      simp only [save_to_log_file, rotate_log_file_if_needed, Option.getD_none,
        List.nil_append]
      exact Nat.le_add_left _ _
    | some c =>
      have hend := hfile c rfl
      rcases Nat.lt_or_ge (readLines c).length maxLines with hlt | hge
      · have hrot : rotate_log_file_if_needed maxLines keep rotTs (some c) =
            some c := by
          simp only [rotate_log_file_if_needed]
          rw [if_neg (by omega)]
        have hc : c = (readLines c).flatten := (flatten_readLines c).symm
        have happ : readLines (c ++ log_entry sep ts message) =
            readLines c ++ readLines (log_entry sep ts message) := by
          conv_lhs => rw [hc]
          exact readLines_flatten_append _ _ (proper_of_ends_nl c hend)
        simp only [save_to_log_file, hrot, Option.getD_some]
        rw [happ, List.length_append]
        have hmax : maxLines - 1 ≤ max (maxLines - 1) (keep + 9) :=
          le_max_left _ _
        omega
      · obtain ⟨h1, h2, h3⟩ :=
          rotate_lines maxLines keep rotTs c hk hkm hge hend hts
        have hproper : ∀ l ∈ (readLines c).drop ((readLines c).length - keep) ++
            marker_lines (readLines c).length keep maxLines rotTs,
            proper_line l := by
          intro l hl
          rcases List.mem_append.mp hl with h | h
          · exact proper_of_ends_nl c hend l (List.mem_of_mem_drop h)
          · exact marker_lines_proper _ _ _ _ hts l h
        have happ := readLines_flatten_append _ (log_entry sep ts message) hproper
        simp only [save_to_log_file, h1, Option.getD_some]
        rw [happ, List.length_append, List.length_append, h3]
        have h9 : (marker_lines (readLines c).length keep maxLines
            rotTs).length = 9 := by
          simp [marker_lines]
        rw [h9]
        have hmax : keep + 9 ≤ max (maxLines - 1) (keep + 9) := le_max_right _ _
        omega

/-- Witness for the amended C3 at a concrete rotation: a six-line file
    with threshold 3 and retention 1 rotates to 1 + 9 lines. -/
theorem claim_C3_amended_witness :
    (readLines ((rotate_log_file_if_needed 3 1 (str "T")
        (some (str "a\nb\nc\n"))).getD [])).length = 1 + 9 :=
  claim_C3_amended.1 3 1 (str "T") (str "a\nb\nc\n") (by decide) (by decide)
    (by decide) (by decide) (by decide)

/-- Witness for the amended C2 at a concrete state with connectivity
    already up and pending set. -/
theorem claim_C2_amended_witness :
    (main_iteration 3 ⟨true, true, 5, 1⟩ true true).failed = 0 ∧
    (main_iteration 3 ⟨true, true, 5, 1⟩ true true).pending =
      (true && true) :=
  claim_C2_amended 3 ⟨true, true, 5, 1⟩
